import Mathlib

/-
Verification of the PXP-101 balance-pass frontend (src/src/App.jsx).
The relevant operations are embedded as pure Lean functions:
the proof-submission flow handleProveAndConsume, the network check of
connectWallet, the contract-state loader loadContractState, and the
AccessGranted event handler. Effects (fetches and contract calls) are
recorded as an explicit action trace; React state is a record threaded
through the functions.
-/

namespace BalancePass

/-- JS String.prototype.includes: substring containment on character data. -/
def jsIncludes (s sub : String) : Bool := decide (sub.data <:+: s.data)

/-- JS a or-else b on an optional string, with JS falsiness: a missing value
and the empty string both fall through to the default. -/
def jsOrString (o : Option String) (dflt : String) : String :=
  match o with
  | some s => if s = "" then dflt else s
  | none => dflt

/-- A JS error value as seen by the catch blocks: the optional reason,
shortMessage and message properties, and the String(e) rendering. -/
structure ErrObj where
  reason : Option String
  shortMessage : Option String
  message : Option String
  str : String
deriving DecidableEq

/-- throw new Error(msg): the message property is msg and String(e) renders
as Error: followed by msg. -/
def mkError (msg : String) : ErrObj :=
  ⟨none, none, some msg, "Error: " ++ msg⟩

/-- The proof object loaded from balance_proof.json, at the indices the
code reads: pi_a and pi_c at indices 0 and 1, pi_b at indices (i, j) with
i, j in 0..1, already numerically parsed. -/
structure ProofJson where
  pi_a : Fin 2 → Nat
  pi_b : Fin 2 → Fin 2 → Nat
  pi_c : Fin 2 → Nat

/-- Calldata array a built by handleProveAndConsume:
[toBig(proof.pi_a[0]), toBig(proof.pi_a[1])]. -/
def aList (p : ProofJson) : List Nat := [p.pi_a 0, p.pi_a 1]

/-- Calldata array b built by handleProveAndConsume:
[[pi_b[0][1], pi_b[0][0]], [pi_b[1][1], pi_b[1][0]]]. -/
def bList (p : ProofJson) : List (List Nat) :=
  [[p.pi_b 0 1, p.pi_b 0 0], [p.pi_b 1 1, p.pi_b 1 0]]

/-- Calldata array c built by handleProveAndConsume:
[toBig(proof.pi_c[0]), toBig(proof.pi_c[1])]. -/
def cList (p : ProofJson) : List Nat := [p.pi_c 0, p.pi_c 1]

/-- The effects the component performs: the two static JSON fetches, the two
read-only contract calls, and the state-changing proveAndConsume call with
its calldata. -/
inductive Action where
  | fetchProof
  | fetchPub
  | callCurrentRoot
  | callRequiredThreshold
  | proveAndConsumeCall (pA : List Nat) (pB : List (List Nat))
      (pC : List Nat) (pubSignals : List Nat)
deriving DecidableEq

/-- Whether an action is the state-changing proveAndConsume contract call. -/
def isProveCall : Action → Bool
  | Action.proveAndConsumeCall _ _ _ _ => true
  | _ => false

/-- The React state fields the claims are about, with their useState
initial values given by initState. -/
structure AppState where
  currentRoot : Option Nat
  threshold : Option Nat
  status : String
  txHash : Option String
  error : Option String
  loading : Bool
deriving DecidableEq

/-- Initial component state: all useState initial values. -/
def initState : AppState := ⟨none, none, "", none, none, false⟩

/-- The transaction object returned by the contract call. -/
structure TxSent where
  hash : String
deriving DecidableEq

/-- The receipt returned by tx.wait(). -/
structure Receipt where
  blockNumber : Nat
deriving DecidableEq

/-- The JSON value loaded from balance_public.json, at the granularity the
code observes: an array of numerics, a JSON string, JSON null, or any other
value carrying a numeric length property or none (numbers, booleans, and
plain objects). -/
inductive PubJson where
  | arr (xs : List Nat)
  | str (s : String)
  | null
  | other (lengthProp : Option Nat)
deriving DecidableEq

/-- The TypeError thrown by reading the length property of null while the
message template literal is evaluated, with the V8 message text; String(e)
renders with the TypeError name prefix. -/
def nullLengthTypeError : ErrObj :=
  ⟨none, none, some "Cannot read properties of null (reading \x27length\x27)",
    "TypeError: Cannot read properties of null (reading \x27length\x27)"⟩

/-- Reading pub.length inside the message template literal: arrays and
strings give their length, null throws a TypeError, and any other value
gives its length property when present. -/
def readLength : PubJson → Except ErrObj (Option Nat)
  | PubJson.arr xs => Except.ok (some xs.length)
  | PubJson.str s => Except.ok (some s.length)
  | PubJson.null => Except.error nullLengthTypeError
  | PubJson.other l => Except.ok l

/-- The rendering of the read length value inside the template literal: the
decimal number when the property is present, undefined otherwise. -/
def lenDisplay : Option Nat → String
  | some n => Nat.repr n
  | none => "undefined"

/-- The elements of an array value, as consumed by pub.map(toBig) once the
shape check has passed. -/
def arrElems : PubJson → List Nat
  | PubJson.arr xs => xs
  | _ => []

/-- The environment of one handleProveAndConsume invocation: presence of
signer, provider and contract address, the recorded network check, the
fetch and JSON-parse outcomes, and the outcomes of the contract call and
of waiting for its receipt. -/
structure Env where
  signer : Bool
  provider : Bool
  networkOk : Bool
  address : Bool
  proofOk : Bool
  pubOk : Bool
  proofJson : Except ErrObj ProofJson
  pubJson : Except ErrObj PubJson
  txSend : Except ErrObj TxSent
  txWait : Except ErrObj Receipt

/-- The shape test !Array.isArray(pub) || pub.length !== 2: the disjunction
short-circuits, so the length property is not read here for a non-array. -/
def pubShapeOk : PubJson → Bool
  | PubJson.arr xs => xs.length == 2
  | _ => false

/-- The message of the shape error thrown for a malformed
balance_public.json, as a function of the read length value. -/
def pubShapeMsgOf (l : Option Nat) : String :=
  "balance_public.json must contain 2 values [root, nullifierHash], got "
    ++ lenDisplay l

/-- Result of the try block of handleProveAndConsume: the state reached,
the actions performed, and the error thrown if any. -/
structure BodyOut where
  state : AppState
  actions : List Action
  err : Option ErrObj

/-- The state resets at the top of handleProveAndConsume: setError(null),
setTxHash(null), setStatus of the empty string, setLoading(true). -/
def resetState (s : AppState) : AppState :=
  { s with error := none, txHash := none, status := "", loading := true }

/-- The try block of handleProveAndConsume: guard checks, the two fetches,
JSON parsing, the public-signals shape check, calldata construction, the
proveAndConsume call, and waiting for the receipt. -/
def runBody (env : Env) (s : AppState) : BodyOut :=
  if !(env.signer && env.provider) then
    ⟨s, [], some (mkError "Wallet not connected")⟩
  else if !env.networkOk then
    ⟨s, [], some (mkError "Wrong network (must be Ethereum mainnet for now).")⟩
  else if !env.address then
    ⟨s, [], some (mkError "VITE_BALANCE_ACCESS_ADDRESS is not defined in .env")⟩
  else if !(env.proofOk && env.pubOk) then
    ⟨s, [Action.fetchProof, Action.fetchPub],
      some (mkError "Unable to load balance_proof.json / balance_public.json")⟩
  else
    match env.proofJson with
    | Except.error e => ⟨s, [Action.fetchProof, Action.fetchPub], some e⟩
    | Except.ok proof =>
      match env.pubJson with
      | Except.error e => ⟨s, [Action.fetchProof, Action.fetchPub], some e⟩
      | Except.ok pub =>
        if !(pubShapeOk pub) then
          match readLength pub with
          | Except.error te => ⟨s, [Action.fetchProof, Action.fetchPub], some te⟩
          | Except.ok l =>
            ⟨s, [Action.fetchProof, Action.fetchPub],
              some (mkError (pubShapeMsgOf l))⟩
        else
          let xs := arrElems pub
          let pubSignals := [xs.getD 0 0, xs.getD 1 0]
          let s1 := { s with status := "Sending transaction..." }
          let acts := [Action.fetchProof, Action.fetchPub,
            Action.proveAndConsumeCall (aList proof) (bList proof)
              (cList proof) pubSignals]
          match env.txSend with
          | Except.error e => ⟨s1, acts, some e⟩
          | Except.ok tx =>
            let s2 := { s1 with txHash := some tx.hash, status := "Transaction sent, waiting for confirmation..." }
            match env.txWait with
            | Except.error e => ⟨s2, acts, some e⟩
            | Except.ok rc =>
              ⟨{ s2 with status := "Access granted! Block #" ++ Nat.repr rc.blockNumber },
                acts, none⟩

/-- The key substring of the friendly error mapping. -/
def nullifierUsedKey : String := "Nullifier already used"

/-- The friendly replacement message for a consumed nullifier. -/
def nullifierUsedFriendly : String :=
  "This ZK pass has already been used. Each proof can only be consumed once."

/-- The status text set by the catch block. -/
def failedStatus : String := "Proof / transaction failed."

/-- The first line of the catch block:
e.reason, else e.shortMessage, else e.message, else String(e). -/
def friendlyBase (e : ErrObj) : String :=
  jsOrString e.reason (jsOrString e.shortMessage (jsOrString e.message e.str))

/-- The catch block of handleProveAndConsume: friendly error mapping,
setError, and the failed status. -/
def applyCatch (e : ErrObj) (s : AppState) : AppState :=
  let friendly := friendlyBase e
  let friendly2 :=
    if jsIncludes friendly nullifierUsedKey || jsIncludes e.str nullifierUsedKey
    then nullifierUsedFriendly
    else friendly
  { s with error := some friendly2, status := failedStatus }

/-- The whole handleProveAndConsume flow: resets, try body, catch on a
thrown error, and the finally block clearing the loading flag. The result
is the final state paired with the trace of performed actions. -/
def handleProveAndConsume (env : Env) (s0 : AppState) : AppState × List Action :=
  let out := runBody env (resetState s0)
  let s2 :=
    match out.err with
    | none => out.state
    | some e => applyCatch e out.state
  ({ s2 with loading := false }, out.actions)

/-- The network check of connectWallet: networkOk and the status message
as functions of the detected and expected chain ids. -/
def connectNetworkCheck (chainId expected : Nat) : Bool × String :=
  if chainId = expected then (true, "")
  else (false, "Wrong network: current chainId = " ++ Nat.repr chainId
    ++ ", expected = " ++ Nat.repr expected)

/-- The loadContractState effect: guard on signer and contract address,
then the currentRoot and requiredThreshold calls, storing both values, with
the catch block setting the error state. -/
def loadContractState (signer address : Bool)
    (rootRes thrRes : Except ErrObj Nat) (s : AppState) :
    AppState × List Action :=
  if !(signer && address) then (s, [])
  else
    match rootRes with
    | Except.error e =>
      ({ s with error := some (jsOrString e.message e.str) },
        [Action.callCurrentRoot])
    | Except.ok root =>
      match thrRes with
      | Except.error e =>
        ({ s with error := some (jsOrString e.message e.str) },
          [Action.callCurrentRoot, Action.callRequiredThreshold])
      | Except.ok thr =>
        ({ s with currentRoot := some root, threshold := some thr },
          [Action.callCurrentRoot, Action.callRequiredThreshold])

/-- One entry of the accessEvents list, as built by the AccessGranted
handler. -/
structure AccessEvent where
  caller : String
  nullifier : Nat
  root : Nat
  txHash : Option String
  blockNumber : Option Nat
deriving DecidableEq

/-- The AccessGranted event handler: prepend the new entry and keep only
the latest 5 events. -/
def handler (ev : AccessEvent) (prev : List AccessEvent) : List AccessEvent :=
  (ev :: prev).take 5

/-- The accessEvents state after a sequence of event deliveries, starting
from the empty initial list. -/
def runEvents (evs : List AccessEvent) : List AccessEvent :=
  evs.foldl (fun prev ev => handler ev prev) []

/-
Helper lemmas about the event feed.
-/

theorem runEvents_append (l : List AccessEvent) (e : AccessEvent) :
    runEvents (l ++ [e]) = (e :: runEvents l).take 5 := by
  simp [runEvents, List.foldl_append, handler]

theorem runEvents_eq (l : List AccessEvent) :
    runEvents l = l.reverse.take 5 := by
  induction l using List.reverseRecOn with
  | nil => rfl
  | append_singleton l e ih =>
    rw [runEvents_append, ih]
    simp [List.take_succ_cons, List.take_take]

/-- A concrete event used to exhibit duplicate deliveries. -/
def dupEvent : AccessEvent := ⟨"0xabc", 7, 9, some "0xdead", some 100⟩

/-- C2 counterexample: delivering the same AccessGranted event twice leaves
two entries with the same transaction hash and nullifier in the displayed
list, so the feed is not de-duplicated. -/
theorem c2_counterexample :
    ¬ ((runEvents [dupEvent, dupEvent]).Pairwise
      fun x y => ¬ (x.txHash = y.txHash ∧ x.nullifier = y.nullifier)) := by
  decide

/-- C2 (amended): the handler performs no de-duplication: whenever the same
event is delivered twice in a row, the displayed list starts with two
copies of that entry; the feed only truncates to the newest five entries. -/
theorem c2_amended (e : AccessEvent) (evs : List AccessEvent) :
    (runEvents (evs ++ [e, e])).take 2 = [e, e] := by
  have h : evs ++ [e, e] = (evs ++ [e]) ++ [e] := by simp
  rw [h, runEvents_append, runEvents_append]
  simp [List.take_succ_cons, List.take_take]

/-- C3: the displayed access-events list is exactly the newest-first list of
the five (or fewer) most recently delivered events, and never exceeds
length 5. -/
theorem c3_last_five (evs : List AccessEvent) :
    runEvents evs = evs.reverse.take 5 ∧ (runEvents evs).length ≤ 5 := by
  refine ⟨runEvents_eq evs, ?_⟩
  rw [runEvents_eq]
  simp

/-
Helper lemmas about the submission flow.
-/

theorem runBody_actions (env : Env) (s : AppState) :
    (runBody env s).actions = [] ∨
    (runBody env s).actions = [Action.fetchProof, Action.fetchPub] ∨
    ∃ p xs, env.proofJson = Except.ok p ∧
      env.pubJson = Except.ok (PubJson.arr xs) ∧ xs.length = 2 ∧
      (runBody env s).actions = [Action.fetchProof, Action.fetchPub,
        Action.proveAndConsumeCall (aList p) (bList p) (cList p)
          [xs.getD 0 0, xs.getD 1 0]] := by
  unfold runBody
  split
  · exact Or.inl rfl
  split
  · exact Or.inl rfl
  split
  · exact Or.inl rfl
  split
  · exact Or.inr (Or.inl rfl)
  split
  · exact Or.inr (Or.inl rfl)
  rename_i proof hproof
  split
  · exact Or.inr (Or.inl rfl)
  rename_i pub hpub
  split
  · split
    · exact Or.inr (Or.inl rfl)
    · exact Or.inr (Or.inl rfl)
  rename_i hshape
  have hx : ∃ xs, pub = PubJson.arr xs ∧ xs.length = 2 := by
    cases pub with
    | arr xs =>
      refine ⟨xs, rfl, ?_⟩
      simpa [pubShapeOk] using hshape
    | str s2 => simp [pubShapeOk] at hshape
    | null => simp [pubShapeOk] at hshape
    | other l => simp [pubShapeOk] at hshape
  obtain ⟨xs, rfl, hlen⟩ := hx
  refine Or.inr (Or.inr ⟨proof, xs, hproof, hpub, hlen, ?_⟩)
  split
  · simp [arrElems]
  split
  · simp [arrElems]
  · simp [arrElems]

theorem handle_actions_eq (env : Env) (s0 : AppState) :
    (handleProveAndConsume env s0).2 = (runBody env (resetState s0)).actions := rfl

/-- A concrete proof object whose pi_b entries are pairwise distinct. -/
def cexProof : ProofJson :=
  ⟨fun i => 10 + i.val, fun i j => 2 * i.val + j.val, fun i => 20 + i.val⟩

/-- A concrete fully successful submission environment. -/
def cexEnv : Env :=
  ⟨true, true, true, true, true, true, Except.ok cexProof,
    Except.ok (PubJson.arr [5, 6]), Except.ok ⟨"0xhash"⟩, Except.ok ⟨123⟩⟩

/-- C1 counterexample: in a successful submission the proveAndConsume call
is in the trace, yet the submitted _pB[0][0] differs from pi_b[0][0]; the
calldata is not forwarded verbatim because the inner pi_b coordinates are
swapped. -/
theorem c1_counterexample :
    Action.proveAndConsumeCall (aList cexProof) (bList cexProof)
        (cList cexProof) [5, 6] ∈ (handleProveAndConsume cexEnv initState).2 ∧
    ¬ (((bList cexProof).getD 0 []).getD 0 0 = cexProof.pi_b 0 0) := by
  decide

/-- C1 (amended): the calldata passed to proveAndConsume equals the loaded
proof values with the inner coordinates of pi_b swapped: for the call in
the trace, _pA[i] = pi_a[i], _pC[i] = pi_c[i], and _pB[i][j] = pi_b[i][1-j],
up to numeric parsing. -/
theorem c1_amended_swapped (env : Env) (s0 : AppState) (p : ProofJson)
    (pA : List Nat) (pB : List (List Nat)) (pC : List Nat) (ps : List Nat)
    (hp : env.proofJson = Except.ok p)
    (hm : Action.proveAndConsumeCall pA pB pC ps
      ∈ (handleProveAndConsume env s0).2)
    (i j : Fin 2) :
    pA.getD i.val 0 = p.pi_a i ∧
    (pB.getD i.val []).getD j.val 0 = p.pi_b i (1 - j) ∧
    pC.getD i.val 0 = p.pi_c i := by
  rw [handle_actions_eq] at hm
  rcases runBody_actions env (resetState s0) with h | h | ⟨p2, xs, hp2, hx2, hlen, h⟩
  · rw [h] at hm; simp at hm
  · rw [h] at hm; simp at hm
  · rw [h] at hm
    simp only [List.mem_cons, List.not_mem_nil, or_false] at hm
    rcases hm with h1 | h1 | h1
    · exact absurd h1 (by simp)
    · exact absurd h1 (by simp)
    · rw [hp] at hp2
      have hpp : p = p2 := by injection hp2
      subst hpp
      injection h1 with e1 e2 e3 e4
      subst e1; subst e2; subst e3
      fin_cases i <;> fin_cases j <;> exact ⟨rfl, rfl, rfl⟩

/-- C1 amended witness at the concrete successful environment. -/
theorem c1_amended_swapped_witness :
    (aList cexProof).getD 0 0 = cexProof.pi_a 0 ∧
    ((bList cexProof).getD 0 []).getD 1 0 = cexProof.pi_b 0 (1 - 1) ∧
    (cList cexProof).getD 0 0 = cexProof.pi_c 0 :=
  c1_amended_swapped cexEnv initState cexProof (aList cexProof)
    (bList cexProof) (cList cexProof) [5, 6] rfl (by decide) 0 1

/-- C4: under a successful load of the two static JSON files with a
well-shaped public-signals array, the submission trace is exactly the two
fetches followed by a single proveAndConsume call, whose calldata has the
fixed shape: length-2 _pA, 2 by 2 _pB, length-2 _pC and length-2 public
signals. -/
theorem c4_single_fixed_call (env : Env) (s0 : AppState)
    (h1 : env.signer = true) (h2 : env.provider = true)
    (h3 : env.networkOk = true) (h4 : env.address = true)
    (h5 : env.proofOk = true) (h6 : env.pubOk = true)
    (p : ProofJson) (xs : List Nat)
    (hp : env.proofJson = Except.ok p)
    (hx : env.pubJson = Except.ok (PubJson.arr xs)) (hlen : xs.length = 2) :
    (handleProveAndConsume env s0).2 =
      [Action.fetchProof, Action.fetchPub,
        Action.proveAndConsumeCall (aList p) (bList p) (cList p)
          [xs.getD 0 0, xs.getD 1 0]] ∧
    (handleProveAndConsume env s0).2.countP (fun a => isProveCall a) = 1 ∧
    (aList p).length = 2 ∧ (bList p).length = 2 ∧
    (∀ r ∈ bList p, r.length = 2) ∧ (cList p).length = 2 ∧
    ([xs.getD 0 0, xs.getD 1 0] : List Nat).length = 2 := by
  have hacts : (handleProveAndConsume env s0).2 =
      [Action.fetchProof, Action.fetchPub,
        Action.proveAndConsumeCall (aList p) (bList p) (cList p)
          [xs.getD 0 0, xs.getD 1 0]] := by
    rw [handle_actions_eq]
    unfold runBody
    rcases hsend : env.txSend with e | tx
    · simp [h1, h2, h3, h4, h5, h6, hp, hx, pubShapeOk, hlen, arrElems, hsend]
    rcases hwait : env.txWait with e2 | rc <;>
      simp [h1, h2, h3, h4, h5, h6, hp, hx, pubShapeOk, hlen, arrElems, hsend,
        hwait]
  refine ⟨hacts, ?_, rfl, rfl, ?_, rfl, rfl⟩
  · rw [hacts]
    simp [List.countP_cons, isProveCall]
  · intro r hr
    rcases List.mem_cons.mp hr with h | h
    · rw [h]; rfl
    · rcases List.mem_cons.mp h with h9 | h9
      · rw [h9]; rfl
      · exact absurd h9 (List.not_mem_nil r)

/-- C4 witness at the concrete successful environment. -/
theorem c4_single_fixed_call_witness :
    (handleProveAndConsume cexEnv initState).2.countP
      (fun a => isProveCall a) = 1 :=
  (c4_single_fixed_call cexEnv initState rfl rfl rfl rfl rfl rfl cexProof
    [5, 6] rfl rfl rfl).2.1

/-
String helper lemmas: the decimal rendering of a number consists of digit
characters only, so no rendered error message of the shape check can
contain the nullifier key substring.
-/

theorem digitChar_isDigit (m : Nat) (h : m < 10) :
    (Nat.digitChar m).isDigit = true := by
  interval_cases m <;> decide

theorem toDigitsCore_digits (f : Nat) : ∀ (n : Nat) (ds : List Char),
    (∀ c ∈ ds, c.isDigit = true) →
    ∀ c ∈ Nat.toDigitsCore 10 f n ds, c.isDigit = true := by
  induction f with
  | zero =>
    intro n ds h c hc
    simp only [Nat.toDigitsCore] at hc
    exact h c hc
  | succ f ih =>
    intro n ds h c hc
    simp only [Nat.toDigitsCore] at hc
    split at hc
    · rcases List.mem_cons.mp hc with h1 | h1
      · rw [h1]
        exact digitChar_isDigit _ (Nat.mod_lt n (by norm_num))
      · exact h c h1
    · refine ih (n / 10) (Nat.digitChar (n % 10) :: ds) ?_ c hc
      intro c2 hc2
      rcases List.mem_cons.mp hc2 with h1 | h1
      · rw [h1]
        exact digitChar_isDigit _ (Nat.mod_lt n (by norm_num))
      · exact h c2 h1

theorem repr_digits (n : Nat) : ∀ c ∈ (Nat.repr n).data, c.isDigit = true := by
  intro c hc
  have h0 : (Nat.repr n).data = Nat.toDigitsCore 10 (n + 1) n [] := rfl
  rw [h0] at hc
  exact toDigitsCore_digits (n + 1) n [] (by simp) c hc

theorem jsIncludes_eq_false (s sub : String) (c : Char) (hc : c ∈ sub.data)
    (hs : c ∉ s.data) : jsIncludes s sub = false := by
  unfold jsIncludes
  simp only [decide_eq_false_iff_not]
  intro hinf
  exact hs (hinf.sublist.subset hc)

theorem pubShapeMsgOf_no_N (l : Option Nat) :
    'N' ∉ (pubShapeMsgOf l).data := by
  unfold pubShapeMsgOf
  rw [String.data_append]
  intro hmem
  rcases List.mem_append.mp hmem with h | h
  · exact absurd h (by decide)
  · cases l with
    | none => exact absurd h (by decide)
    | some n =>
      simp only [lenDisplay] at h
      have hd := repr_digits n 'N' h
      exact absurd hd (by decide)

theorem errStr_no_N (l : Option Nat) :
    'N' ∉ ("Error: " ++ pubShapeMsgOf l).data := by
  rw [String.data_append]
  intro hmem
  rcases List.mem_append.mp hmem with h | h
  · exact absurd h (by decide)
  · exact absurd h (pubShapeMsgOf_no_N l)

theorem pubShapeMsgOf_ne_empty (l : Option Nat) : pubShapeMsgOf l ≠ "" := by
  intro h
  have h2 : (pubShapeMsgOf l).data = [] := by rw [h]
  rw [pubShapeMsgOf, String.data_append] at h2
  rcases List.append_eq_nil.mp h2 with ⟨h3, _⟩
  exact absurd h3 (by decide)

/-- C5: when the chain id recorded at wallet connection differs from the
expected chain id, the network check records networkOk as false, and every
subsequent submission attempt performs no fetch and no contract call,
fails, and sets the error state to the wrong-network message. -/
theorem c5_network_gate (chainId expected : Nat) (h : chainId ≠ expected)
    (env : Env) (s0 : AppState)
    (hnet : env.networkOk = (connectNetworkCheck chainId expected).1)
    (hs : env.signer = true) (hpv : env.provider = true) :
    (handleProveAndConsume env s0).2 = [] ∧
    (handleProveAndConsume env s0).1.error =
      some "Wrong network (must be Ethereum mainnet for now)." ∧
    (handleProveAndConsume env s0).1.status = failedStatus := by
  have hnet2 : env.networkOk = false := by
    rw [hnet, connectNetworkCheck, if_neg h]
  have hne : "Wrong network (must be Ethereum mainnet for now)." ≠ "" := by
    decide
  have hi1 : jsIncludes "Wrong network (must be Ethereum mainnet for now)."
      nullifierUsedKey = false := by decide
  have hi2 : jsIncludes "Error: Wrong network (must be Ethereum mainnet for now)."
      nullifierUsedKey = false := by decide
  unfold handleProveAndConsume runBody applyCatch friendlyBase mkError jsOrString
  simp [hs, hpv, hnet2, hne, hi1, hi2, resetState]

/-- A concrete environment recorded on the wrong network. -/
def gateEnv : Env :=
  ⟨true, true, false, true, true, true, Except.ok cexProof,
    Except.ok (PubJson.arr [5, 6]), Except.ok ⟨"0xhash"⟩, Except.ok ⟨123⟩⟩

/-- C5 witness at chain id 5 against expected chain id 1. -/
theorem c5_network_gate_witness :
    (handleProveAndConsume gateEnv initState).1.error =
      some "Wrong network (must be Ethereum mainnet for now)." :=
  (c5_network_gate 5 1 (by decide) gateEnv initState rfl rfl rfl).2.1

/-- C6: with a signer and contract address available and both reads
succeeding, loadContractState performs exactly the currentRoot call
followed by the requiredThreshold call and stores the two returned values;
moreover every action it ever performs is one of these two read calls. -/
theorem c6_two_reads (rootRes thrRes : Except ErrObj Nat) (r t : Nat)
    (s : AppState) (hr : rootRes = Except.ok r) (ht : thrRes = Except.ok t) :
    loadContractState true true rootRes thrRes s =
      ({ s with currentRoot := some r, threshold := some t },
        [Action.callCurrentRoot, Action.callRequiredThreshold]) ∧
    ∀ (rr tt : Except ErrObj Nat) (s2 : AppState) (a : Action),
      a ∈ (loadContractState true true rr tt s2).2 →
      a = Action.callCurrentRoot ∨ a = Action.callRequiredThreshold := by
  constructor
  · rw [hr, ht]
    rfl
  · intro rr tt s2 a ha
    rcases rr with e | root
    · simp only [loadContractState] at ha
      simp at ha
      exact Or.inl ha
    · rcases tt with e2 | thr <;>
      · simp only [loadContractState] at ha
        simp at ha
        exact ha

/-- C6 witness with concrete read results. -/
theorem c6_two_reads_witness :
    loadContractState true true (Except.ok 3) (Except.ok 4) initState =
      ({ initState with currentRoot := some 3, threshold := some 4 },
        [Action.callCurrentRoot, Action.callRequiredThreshold]) :=
  (c6_two_reads (Except.ok 3) (Except.ok 4) 3 4 initState rfl rfl).1

/-- C7: on a successful submission the transaction hash state is set to the
hash of the sent transaction and the final status reports success with the
confirmation block number; and whenever the try body throws, the final
status reports failure. -/
theorem c7_tx_status (env : Env) (s0 : AppState) (tx : TxSent) (rc : Receipt)
    (h1 : env.signer = true) (h2 : env.provider = true)
    (h3 : env.networkOk = true) (h4 : env.address = true)
    (h5 : env.proofOk = true) (h6 : env.pubOk = true)
    (p : ProofJson) (xs : List Nat)
    (hp : env.proofJson = Except.ok p)
    (hx : env.pubJson = Except.ok (PubJson.arr xs)) (hlen : xs.length = 2)
    (hsend : env.txSend = Except.ok tx) (hwait : env.txWait = Except.ok rc) :
    (handleProveAndConsume env s0).1.txHash = some tx.hash ∧
    (handleProveAndConsume env s0).1.status =
      "Access granted! Block #" ++ Nat.repr rc.blockNumber ∧
    ∀ (env2 : Env) (s2 : AppState) (e : ErrObj),
      (runBody env2 (resetState s2)).err = some e →
      (handleProveAndConsume env2 s2).1.status = failedStatus := by
  refine ⟨?_, ?_, ?_⟩
  · unfold handleProveAndConsume runBody
    simp [h1, h2, h3, h4, h5, h6, hp, hx, pubShapeOk, hlen, arrElems, hsend,
      hwait]
  · unfold handleProveAndConsume runBody
    simp [h1, h2, h3, h4, h5, h6, hp, hx, pubShapeOk, hlen, arrElems, hsend,
      hwait]
  · intro env2 s2 e he
    unfold handleProveAndConsume
    simp [he, applyCatch]

/-- C7 witness at the concrete successful environment. -/
theorem c7_tx_status_witness :
    (handleProveAndConsume cexEnv initState).1.txHash = some "0xhash" ∧
    (handleProveAndConsume cexEnv initState).1.status =
      "Access granted! Block #" ++ Nat.repr 123 := by
  have h := c7_tx_status cexEnv initState ⟨"0xhash"⟩ ⟨123⟩ rfl rfl rfl rfl rfl
    rfl cexProof [5, 6] rfl rfl rfl rfl rfl
  exact ⟨h.1, h.2.1⟩

/-- A concrete environment whose public-signals file holds three values. -/
def badPubEnv : Env :=
  ⟨true, true, true, true, true, true, Except.ok cexProof,
    Except.ok (PubJson.arr [1, 2, 3]), Except.ok ⟨"0xhash"⟩, Except.ok ⟨123⟩⟩

/-- A concrete environment whose public-signals file holds JSON null. -/
def nullPubEnv : Env :=
  ⟨true, true, true, true, true, true, Except.ok cexProof,
    Except.ok PubJson.null, Except.ok ⟨"0xhash"⟩, Except.ok ⟨123⟩⟩

/-- C8 counterexample: when balance_public.json is JSON null the shape
check fails, yet the error state becomes the TypeError text raised while
the message template reads the length property of null, and that text does
not name the expected two-value shape. -/
theorem c8_counterexample :
    pubShapeOk PubJson.null = false ∧
    (handleProveAndConsume nullPubEnv initState).1.error =
      some "Cannot read properties of null (reading \x27length\x27)" ∧
    jsIncludes "Cannot read properties of null (reading \x27length\x27)"
      "must contain 2 values [root, nullifierHash]" = false := by
  decide

/-- C8 (amended): when the loaded public-signals JSON is not an array of
exactly two elements, the submission performs the two fetches and no
contract call and leaves the transaction hash state null; if reading the
length property succeeds, the error state is the message naming the
expected two-value shape with that length rendered, while for JSON null
the read itself throws and the TypeError text becomes the error state. -/
theorem c8_pub_shape_throw (env : Env) (s0 : AppState)
    (h1 : env.signer = true) (h2 : env.provider = true)
    (h3 : env.networkOk = true) (h4 : env.address = true)
    (h5 : env.proofOk = true) (h6 : env.pubOk = true)
    (p : ProofJson) (pv : PubJson)
    (hp : env.proofJson = Except.ok p)
    (hx : env.pubJson = Except.ok pv)
    (hbad : pubShapeOk pv = false) :
    (handleProveAndConsume env s0).2 = [Action.fetchProof, Action.fetchPub] ∧
    (handleProveAndConsume env s0).1.txHash = none ∧
    (∀ l, readLength pv = Except.ok l →
      (handleProveAndConsume env s0).1.error = some (pubShapeMsgOf l)) ∧
    (readLength pv = Except.error nullLengthTypeError →
      (handleProveAndConsume env s0).1.error =
        some "Cannot read properties of null (reading \x27length\x27)") := by
  rcases hl : readLength pv with te | l
  · have hpv : pv = PubJson.null := by
      cases pv with
      | arr xs => simp [readLength] at hl
      | str s2 => simp [readLength] at hl
      | null => rfl
      | other l2 => simp [readLength] at hl
    subst hpv
    have hne : ("Cannot read properties of null (reading \x27length\x27)" :
      String) ≠ "" := by decide
    have hi1 : jsIncludes
      "Cannot read properties of null (reading \x27length\x27)"
      nullifierUsedKey = false := by decide
    have hi2 : jsIncludes
      "TypeError: Cannot read properties of null (reading \x27length\x27)"
      nullifierUsedKey = false := by decide
    refine ⟨?_, ?_, ?_, ?_⟩
    · rw [handle_actions_eq]
      unfold runBody
      simp [h1, h2, h3, h4, h5, h6, hp, hx, hbad, readLength]
    · unfold handleProveAndConsume runBody applyCatch
      simp [h1, h2, h3, h4, h5, h6, hp, hx, hbad, readLength, resetState]
    · intro l2 hl2
      simp at hl2
    · intro hte
      have hte2 : te = nullLengthTypeError := by injection hte
      subst hte2
      unfold handleProveAndConsume runBody applyCatch friendlyBase jsOrString
      simp [h1, h2, h3, h4, h5, h6, hp, hx, hbad, readLength,
        nullLengthTypeError, resetState, hne, hi1, hi2]
  · have hkey : jsIncludes (pubShapeMsgOf l) nullifierUsedKey = false :=
      jsIncludes_eq_false _ _ 'N' (by decide) (pubShapeMsgOf_no_N l)
    have hkey2 : jsIncludes ("Error: " ++ pubShapeMsgOf l) nullifierUsedKey
        = false :=
      jsIncludes_eq_false _ _ 'N' (by decide) (errStr_no_N l)
    have hne := pubShapeMsgOf_ne_empty l
    refine ⟨?_, ?_, ?_, ?_⟩
    · rw [handle_actions_eq]
      unfold runBody
      simp [h1, h2, h3, h4, h5, h6, hp, hx, hbad, hl]
    · unfold handleProveAndConsume runBody applyCatch
      simp [h1, h2, h3, h4, h5, h6, hp, hx, hbad, hl, resetState]
    · intro l2 hl2
      have hll : l = l2 := by injection hl2
      subst hll
      unfold handleProveAndConsume runBody applyCatch friendlyBase mkError
        jsOrString
      simp [h1, h2, h3, h4, h5, h6, hp, hx, hbad, hl, resetState, hne, hkey,
        hkey2]
    · intro hcontra
      exact absurd hcontra (by simp)

/-- C8 amended witness: a three-element array yields the shape message with
3 rendered, and JSON null yields the TypeError text. -/
theorem c8_pub_shape_throw_witness :
    (handleProveAndConsume badPubEnv initState).1.error =
      some (pubShapeMsgOf (some 3)) ∧
    (handleProveAndConsume nullPubEnv initState).1.error =
      some "Cannot read properties of null (reading \x27length\x27)" := by
  constructor
  · exact (c8_pub_shape_throw badPubEnv initState rfl rfl rfl rfl rfl rfl
      cexProof (PubJson.arr [1, 2, 3]) rfl rfl (by decide)).2.2.1 (some 3) rfl
  · exact (c8_pub_shape_throw nullPubEnv initState rfl rfl rfl rfl rfl rfl
      cexProof PubJson.null rfl rfl (by decide)).2.2.2 rfl

/-- C9: the finally block always clears the loading flag: whatever the
environment and starting state, the loading state is false when
handleProveAndConsume completes. -/
theorem c9_loading_cleared (env : Env) (s0 : AppState) :
    (handleProveAndConsume env s0).1.loading = false := rfl

/-- An error object whose message holds the nullifier key substring while
its reason and string form do not. -/
def reasonErr : ErrObj :=
  ⟨some "execution reverted", none, some "Nullifier already used",
    "CallException"⟩

/-- C10 counterexample: an error whose message property contains the
substring Nullifier already used is nevertheless not replaced by the
friendly message, because the code tests the reason-first fallback string
and the string form, and here the reason takes precedence. -/
theorem c10_counterexample :
    (∃ m, reasonErr.message = some m ∧ jsIncludes m nullifierUsedKey = true) ∧
    (applyCatch reasonErr initState).error ≠ some nullifierUsedFriendly := by
  constructor
  · exact ⟨"Nullifier already used", rfl, by decide⟩
  · decide

/-- C10 (amended): the friendly replacement triggers exactly when the
computed display string (reason, else short message, else message, else
string form, skipping empty strings) or the string form of the error
contains the substring Nullifier already used; otherwise the computed
display string is shown as the error. -/
theorem c10_amended_fallback (e : ErrObj) (s : AppState) :
    ((jsIncludes (friendlyBase e) nullifierUsedKey
        || jsIncludes e.str nullifierUsedKey) = true →
      (applyCatch e s).error = some nullifierUsedFriendly) ∧
    ((jsIncludes (friendlyBase e) nullifierUsedKey
        || jsIncludes e.str nullifierUsedKey) = false →
      (applyCatch e s).error = some (friendlyBase e)) := by
  constructor <;> intro h <;> simp [applyCatch, h]

/-- C10 amended witness: one error that triggers the replacement and one
that is displayed through its reason. -/
theorem c10_amended_fallback_witness :
    (applyCatch (mkError "Nullifier already used") initState).error =
      some nullifierUsedFriendly ∧
    (applyCatch reasonErr initState).error = some (friendlyBase reasonErr) :=
  ⟨(c10_amended_fallback (mkError "Nullifier already used") initState).1
      (by decide),
    (c10_amended_fallback reasonErr initState).2 (by decide)⟩

end BalancePass
